import Mathlib

/-!
# Verification of the ETL synchronization engine (Piyush30P/ETL-pipe)

Shallow embedding of the Python sources `transform.py`, `extract.py`,
`load.py`, `db.py`, `pipeline.py`, `scheduler.py` and `config.py`, together
with theorems settling the frozen claims about the specification.

Modelling conventions:
* Python runtime values that flow through the pipeline (rows coming from
  `psycopg2`'s `RealDictCursor`, JSONB payloads, tuple elements) are
  modelled by the inductive type `PyVal`.  Python `None` is the value
  `PyVal.none`; a missing dictionary key is distinguished from a key bound
  to `None` exactly as in Python (`d[k]` raises `KeyError`, `d.get(k)`
  returns `None`).
* Python floats are idealised as exact rationals (`Rat`); IEEE-754
  rounding and overflow are abstracted away, which no claim depends on.
* Timestamps are integers (seconds since the Unix epoch);
  `datetime(2020, 1, 1)` is the constant `DEFAULT_EPOCH`.
* Exceptions are explicit: fallible code returns `Except PyErr`.
  A bare `try/except` catching and logging is translated into a `match`
  on such a result.
* Database effects are explicit state passing: the target tables are
  lists of rows, the watermark store is a function from entity to an
  optional watermark row, and connectivity failures of the two stores are
  supplied by an oracle (`DbEnv`) so that every possible exception point
  of a cycle is represented.
-/

set_option maxHeartbeats 1000000

namespace EtlPipe

/-- Python values, as deserialized by psycopg2 / `json.loads`. -/
inductive PyVal where
  | none
  | bool (b : Bool)
  | intv (n : Int)
  | floatv (q : Rat)
  | str (s : String)
  | list (items : List PyVal)
  | dict (entries : List (String × PyVal))

/-- Structural equality of Python values (the `=` of Python restricted to
this value domain; used to model SQL equality on key columns). -/
def PyVal.beq : PyVal → PyVal → Bool
  | .none, .none => true
  | .bool a, .bool b => a == b
  | .intv a, .intv b => a == b
  | .floatv a, .floatv b => a == b
  | .str a, .str b => a == b
  | .list [], .list [] => true
  | .list (x :: xs), .list (y :: ys) => PyVal.beq x y && PyVal.beq (.list xs) (.list ys)
  | .dict [], .dict [] => true
  | .dict ((k, v) :: es), .dict ((l, w) :: fs) =>
      k == l && PyVal.beq v w && PyVal.beq (.dict es) (.dict fs)
  | _, _ => false

/-- Python exceptions that the embedded code can raise. -/
inductive PyErr where
  | keyError (k : String)
  | valueError
  | typeError
  | dbError
  deriving DecidableEq

/-- A `RealDictCursor` row / a Python dict with string keys. -/
abbrev Rec := List (String × PyVal)

/-- `r[k]` on a dict row: raises `KeyError` when the key is absent. -/
def Rec.index (r : Rec) (k : String) : Except PyErr PyVal :=
  match r.lookup k with
  | some v => .ok v
  | Option.none => .error (.keyError k)

/-- `r.get(k)` on a dict row: `None` when the key is absent. -/
def Rec.getv (r : Rec) (k : String) : PyVal :=
  (r.lookup k).getD .none

/-- Python truthiness, `bool(val)`. -/
def py_truthy : PyVal → Bool
  | .none => false
  | .bool b => b
  | .intv n => n != 0
  | .floatv q => q != 0
  | .str s => s != ""
  | .list l => !l.isEmpty
  | .dict d => !d.isEmpty

/-! ## Python standard-library conversions

`float(...)`, `int(...)`, `str(...)`, `json.dumps`, `json.loads`.
String-to-number parsing models the core decimal grammar of Python's
converters (optional surrounding blanks, optional sign, digits with an
optional fractional part); exotic literal forms (exponents, inf/nan,
underscores) are outside the value domain exercised here. -/

def digits_to_nat (cs : List Char) : Nat :=
  cs.foldl (fun a c => a * 10 + (c.toNat - 48)) 0

def strip_blanks (cs : List Char) : List Char :=
  ((cs.dropWhile (· = ' ')).reverse.dropWhile (· = ' ')).reverse

/-- Unsigned part of Python's `float(str)` grammar: `digits [. digits]`,
`digits .` or `. digits`. -/
def parse_unsigned_float (cs : List Char) : Option Rat :=
  let intPart := cs.takeWhile Char.isDigit
  let rest := cs.dropWhile Char.isDigit
  match rest with
  | [] => if intPart.isEmpty then Option.none else some (digits_to_nat intPart : Rat)
  | '.' :: frac =>
      if frac.all Char.isDigit && !(intPart.isEmpty && frac.isEmpty) then
        some ((digits_to_nat intPart : Rat) + (digits_to_nat frac : Rat) / ((10 : Rat) ^ frac.length))
      else Option.none
  | _ => Option.none

def parse_float_string (s : String) : Option Rat :=
  match strip_blanks s.toList with
  | '+' :: rest => parse_unsigned_float rest
  | '-' :: rest => (parse_unsigned_float rest).map Neg.neg
  | cs => parse_unsigned_float cs

def parse_int_string (s : String) : Option Int :=
  let core : List Char → Option Int := fun cs =>
    if !cs.isEmpty && cs.all Char.isDigit then some (digits_to_nat cs : Int) else Option.none
  match strip_blanks s.toList with
  | '+' :: rest => core rest
  | '-' :: rest => (core rest).map Neg.neg
  | cs => core cs

/-- Truncation toward zero, the behaviour of Python's `int()` on a float. -/
def rat_trunc (q : Rat) : Int :=
  if q < 0 then -(((-q).num.toNat / (-q).den : Nat) : Int) else ((q.num.toNat / q.den : Nat) : Int)

/-- Python `float(val)`: succeeds on bools, numbers and numeric strings;
raises `ValueError` on other strings, `TypeError` on other types. -/
def py_float : PyVal → Except PyErr Rat
  | .bool b => .ok (if b then 1 else 0)
  | .intv n => .ok (n : Rat)
  | .floatv q => .ok q
  | .str s =>
      match parse_float_string s with
      | some q => .ok q
      | Option.none => .error .valueError
  | _ => .error .typeError

/-- Python `int(val)`: bools and numbers convert (floats truncate toward
zero), integer-literal strings parse; otherwise `ValueError`/`TypeError`. -/
def py_int : PyVal → Except PyErr Int
  | .bool b => .ok (if b then 1 else 0)
  | .intv n => .ok n
  | .floatv q => .ok (rat_trunc q)
  | .str s =>
      match parse_int_string s with
      | some n => .ok n
      | Option.none => .error .valueError
  | _ => .error .typeError

/-- Rendering of an idealised float (used only inside serialized JSON
text; the exact decimal rendering of Python floats is abstracted). -/
def float_repr (q : Rat) : List Char :=
  if q.den = 1 then (toString q.num).toList ++ ['.', '0'] else (toString q).toList

/-- Python `str(val)` on this value domain (container `repr` punctuation
is abstracted by the JSON rendering below where it differs). -/
def py_str (v : PyVal) : String :=
  match v with
  | .none => "None"
  | .bool b => if b then "True" else "False"
  | .intv n => toString n
  | .floatv q => String.mk (float_repr q)
  | .str s => s
  | .list _ => "<list>"
  | .dict _ => "<dict>"

/-- JSON string escaping for `json.dumps` (control-character escapes
beyond quote and backslash are abstracted). -/
def json_escape_char (c : Char) : List Char :=
  if c = '"' then ['\\', '"'] else if c = '\\' then ['\\', '\\'] else [c]

def json_quote (s : String) : List Char :=
  '"' :: (s.toList.flatMap json_escape_char) ++ ['"']

mutual

/-- `json.dumps(v, default=str)` with the default `", "` / `": "`
separators, as a character list. -/
def json_dumps_val : PyVal → List Char
  | .none => ['n', 'u', 'l', 'l']
  | .bool b => if b then ['t', 'r', 'u', 'e'] else ['f', 'a', 'l', 's', 'e']
  | .intv n => (toString n).toList
  | .floatv q => float_repr q
  | .str s => json_quote s
  | .list items => '[' :: json_dumps_items items ++ [']']
  | .dict entries => '\x7b' :: json_dumps_entries entries ++ ['\x7d']

def json_dumps_items : List PyVal → List Char
  | [] => []
  | [v] => json_dumps_val v
  | v :: vs => json_dumps_val v ++ ',' :: ' ' :: json_dumps_items vs

def json_dumps_entries : List (String × PyVal) → List Char
  | [] => []
  | [(k, v)] => json_quote k ++ ':' :: ' ' :: json_dumps_val v
  | (k, v) :: es => json_quote k ++ ':' :: ' ' :: json_dumps_val v ++ ',' :: ' ' :: json_dumps_entries es

end

def json_dumps (v : PyVal) : String := String.mk (json_dumps_val v)

def skip_ws (cs : List Char) : List Char :=
  cs.dropWhile (fun c => c = ' ' || c = '\n' || c = '\t' || c = '\r')

def json_unescape_char (c : Char) : Char :=
  if c = 'n' then '\n' else if c = 't' then '\t' else if c = 'r' then '\r' else c

/-- Body of a JSON string literal up to the closing quote. -/
def json_str_body : List Char → Option (List Char × List Char)
  | [] => Option.none
  | '"' :: rest => some ([], rest)
  | '\\' :: c :: rest =>
      (json_str_body rest).map (fun p => (json_unescape_char c :: p.1, p.2))
  | c :: rest => (json_str_body rest).map (fun p => (c :: p.1, p.2))

/-- JSON number: optional minus, digits, optional fraction. -/
def json_number (cs : List Char) : Option (PyVal × List Char) :=
  let core : List Char → Option (PyVal × List Char) := fun cs =>
    let ip := cs.takeWhile Char.isDigit
    let rest := cs.dropWhile Char.isDigit
    if ip.isEmpty then Option.none
    else
      match rest with
      | '.' :: rest2 =>
          let fp := rest2.takeWhile Char.isDigit
          let rest3 := rest2.dropWhile Char.isDigit
          if fp.isEmpty then Option.none
          else some (.floatv ((digits_to_nat ip : Rat) + (digits_to_nat fp : Rat) / ((10 : Rat) ^ fp.length)), rest3)
      | _ => some (.intv (digits_to_nat ip : Int), rest)
  match cs with
  | '-' :: rest =>
      (core rest).map (fun p =>
        (match p.1 with
         | .intv n => .intv (-n)
         | .floatv q => .floatv (-q)
         | v => v, p.2))
  | _ => core cs

mutual

/-- `json.loads` (subset grammar), fuelled recursive-descent. -/
def json_parse_value : Nat → List Char → Option (PyVal × List Char)
  | 0, _ => Option.none
  | fuel + 1, cs =>
    match skip_ws cs with
    | 'n' :: 'u' :: 'l' :: 'l' :: rest => some (.none, rest)
    | 't' :: 'r' :: 'u' :: 'e' :: rest => some (.bool true, rest)
    | 'f' :: 'a' :: 'l' :: 's' :: 'e' :: rest => some (.bool false, rest)
    | '"' :: rest => (json_str_body rest).map (fun p => (.str (String.mk p.1), p.2))
    | '[' :: rest =>
        (match skip_ws rest with
         | ']' :: rest2 => some (.list [], rest2)
         | cs2 => (json_parse_array fuel cs2).map (fun p => (.list p.1, p.2)))
    | '\x7b' :: rest =>
        (match skip_ws rest with
         | '\x7d' :: rest2 => some (.dict [], rest2)
         | cs2 => (json_parse_object fuel cs2).map (fun p => (.dict p.1, p.2)))
    | cs2 => json_number cs2

def json_parse_array : Nat → List Char → Option (List PyVal × List Char)
  | 0, _ => Option.none
  | fuel + 1, cs => do
    let (v, rest) ← json_parse_value fuel cs
    match skip_ws rest with
    | ',' :: rest2 => (json_parse_array fuel rest2).map (fun p => (v :: p.1, p.2))
    | ']' :: rest2 => some ([v], rest2)
    | _ => Option.none

def json_parse_object : Nat → List Char → Option (List (String × PyVal) × List Char)
  | 0, _ => Option.none
  | fuel + 1, cs => do
    let (k, rest) ←
      match skip_ws cs with
      | '"' :: cs2 => (json_str_body cs2).map (fun p => (String.mk p.1, p.2))
      | _ => Option.none
    let rest2 ←
      match skip_ws rest with
      | ':' :: cs3 => some cs3
      | _ => Option.none
    let (v, rest3) ← json_parse_value fuel rest2
    match skip_ws rest3 with
    | ',' :: rest4 => (json_parse_object fuel rest4).map (fun p => ((k, v) :: p.1, p.2))
    | '\x7d' :: rest4 => some ([(k, v)], rest4)
    | _ => Option.none

end

def json_loads (s : String) : Option PyVal :=
  match json_parse_value (s.length + 1) s.toList with
  | some (v, rest) => if (skip_ws rest).isEmpty then some v else Option.none
  | Option.none => Option.none

/-! ## config.py -/

def POLL_INTERVAL_SEC : Int := 30
def OVERLAP_SEC : Int := 90
def MAX_BATCH_ROWS : Nat := 5000

def INPUT_DATA_KEYS : List String :=
  ["value", "unit", "start_year", "end_year", "input_type",
   "timeframe", "dosing_type", "actuals_flag", "curve_type",
   "selected_output", "pfs_flag", "ppc_flag"]

def EVENT_DATA_KEYS : List String :=
  ["year", "share_value", "entry_quarter", "erosion_rate",
   "launch_date", "steady_state", "sob_value"]

/-! ## transform.py — tolerant coercions and payload flattening -/

/-- `safe_get`: safely extract a key from a dict (handles None and
non-dict values). -/
def safe_get (data : PyVal) (key : String) : PyVal :=
  match data with
  | .dict d => (d.lookup key).getD .none
  | _ => .none

/-- ASCII lowering of one character (Python `str.lower` on the ASCII
range relevant here). -/
def char_lower (c : Char) : Char :=
  if 'A' ≤ c && c ≤ 'Z' then Char.ofNat (c.toNat + 32) else c

/-- Python `s.lower()`. -/
def py_lower (s : String) : String :=
  String.mk (s.toList.map char_lower)

/-- `safe_bool`: convert various truthy representations to bool or None. -/
def safe_bool (val : PyVal) : PyVal :=
  match val with
  | .none => .none
  | .bool b => .bool b
  | .str s => .bool (["true", "1", "yes"].contains (py_lower s))
  | v => .bool (py_truthy v)

/-- `safe_numeric`: convert to float or None; `except (ValueError,
TypeError)` yields None. -/
def safe_numeric (val : PyVal) : PyVal :=
  match val with
  | .none => .none
  | v =>
      match py_float v with
      | .ok q => .floatv q
      | .error .valueError => .none
      | .error .typeError => .none
      | .error _ => .none

/-- `safe_int`: convert to int or None; `except (ValueError, TypeError)`
yields None. -/
def safe_int (val : PyVal) : PyVal :=
  match val with
  | .none => .none
  | v =>
      match py_int v with
      | .ok n => .intv n
      | .error .valueError => .none
      | .error .typeError => .none
      | .error _ => .none

/-- The `isinstance` normalisation prefix shared by `flatten_input_data`
and `flatten_event_data`: a string is parsed as JSON (unparseable becomes
the empty dict), any other non-dict becomes the empty dict. -/
def coerce_payload (pd : PyVal) : PyVal :=
  match pd with
  | .dict d => .dict d
  | .str s =>
      match json_loads s with
      | some v => v
      | Option.none => .dict []
  | _ => .dict []

/-- `flatten_input_data`: extracts known keys from the `input_data` JSONB
dict into typed values; the full payload is kept in
`input_data_full_text` (None when the payload is falsy). -/
def flatten_input_data (input_data : PyVal) : Rec :=
  let d := coerce_payload input_data
  [("inp_value", safe_numeric (safe_get d "value")),
   ("inp_unit", safe_get d "unit"),
   ("inp_start_year", safe_int (safe_get d "start_year")),
   ("inp_end_year", safe_int (safe_get d "end_year")),
   ("inp_input_type", safe_get d "input_type"),
   ("inp_timeframe", safe_get d "timeframe"),
   ("inp_dosing_type", safe_get d "dosing_type"),
   ("inp_actuals_flag", safe_bool (safe_get d "actuals_flag")),
   ("inp_curve_type", safe_get d "curve_type"),
   ("inp_selected_output", safe_get d "selected_output"),
   ("inp_pfs_flag", safe_bool (safe_get d "pfs_flag")),
   ("inp_ppc_flag", safe_bool (safe_get d "ppc_flag")),
   ("input_data_full_text", if py_truthy d then .str (json_dumps d) else .none)]

/-- `flatten_event_data`: same pattern for the `event_data` JSONB. -/
def flatten_event_data (event_data : PyVal) : Rec :=
  let d := coerce_payload event_data
  [("evt_year", safe_int (safe_get d "year")),
   ("evt_share_value", safe_numeric (safe_get d "share_value")),
   ("evt_entry_quarter", safe_get d "entry_quarter"),
   ("evt_erosion_rate", safe_numeric (safe_get d "erosion_rate")),
   ("evt_launch_date", safe_get d "launch_date"),
   ("evt_steady_state", safe_numeric (safe_get d "steady_state")),
   ("evt_sob_value", safe_numeric (safe_get d "sob_value")),
   ("event_data_full_text", if py_truthy d then .str (json_dumps d) else .none)]

/-- `is None` test. -/
def py_is_none : PyVal → Bool
  | .none => true
  | _ => false

/-- Python `x or 0` as used in `transform_runs`. -/
def or_zero (v : PyVal) : PyVal :=
  if py_truthy v then v else .intv 0

/-- One row of `transform_scenarios`: renames columns into the target
tuple order; required keys are indexed (`r[...]`), optional ones use
`r.get(...)`. -/
def transform_scenario_row (r : Rec) : Except PyErr (List PyVal) := do
  let idv ← r.index "id"
  let dname ← r.index "scenario_display_name"
  let status ← r.index "status"
  let starter ← r.index "is_starter"
  let curr ← r.index "currency"
  let currcode ← r.index "currency_code"
  let ystart ← r.index "scenario_start_year"
  let yend ← r.index "scenario_end_year"
  let created_at ← r.index "created_at"
  let created_by ← r.index "created_by"
  let model_id ← r.index "model_id"
  let model_name ← r.index "model_display_name"
  let ta ← r.index "therapeutic_area_name"
  let da ← r.index "disease_area_name"
  pure [idv, dname, status, starter, curr, currcode, ystart, yend,
        r.getv "scenario_region_name", r.getv "scenario_country_name",
        created_at, created_by,
        r.getv "submitted_at", r.getv "submitted_by",
        r.getv "locked_at", r.getv "locked_by",
        r.getv "updated_at", r.getv "updated_by",
        r.getv "withdraw_at", r.getv "withdraw_by", r.getv "delete_at",
        model_id, model_name, r.getv "model_type", r.getv "model_publish_level",
        ta, da, r.getv "loe_enabled",
        r.getv "model_region_name", r.getv "model_country_name",
        r.getv "forecast_cycle_name", r.getv "forecast_cycle_start",
        r.getv "forecast_cycle_end", r.getv "horizon_start_limit",
        r.getv "horizon_end_limit", r.getv "starter_created"]

def transform_scenarios (rows : List Rec) : Except PyErr (List (List PyVal)) :=
  rows.mapM transform_scenario_row

/-- One row of `transform_node_data`: flattens `input_data`, derives
`is_current_version` from `version_ended_at is None`, and builds the
tuple.  NOTE the `validation_message` element is translated verbatim from
the source: `str(r["validation_message"]) if r.get("input_validation_message") else None` —
the guard reads `input_validation_message` while the indexing reads
`validation_message`. -/
def transform_node_data_row (r : Rec) : Except PyErr (List PyVal) := do
  let input_data ← r.index "input_data"
  let flat := flatten_input_data input_data
  let ve ← r.index "version_ended_at"
  let is_current := PyVal.bool (py_is_none ve)
  let idv ← r.index "id"
  let scen ← r.index "scenario_id"
  let mni ← r.index "model_node_id"
  let vsa ← r.index "version_started_at"
  let vmsg ←
    if py_truthy (r.getv "input_validation_message") then do
      let m ← r.index "validation_message"
      pure (PyVal.str (py_str m))
    else
      pure PyVal.none
  pure [idv, scen, mni,
        r.getv "node_display_name", r.getv "node_type",
        r.getv "tab_name", r.getv "tab_level",
        r.getv "group_name", r.getv "group_type",
        r.getv "node_seq", r.getv "flow",
        vsa, r.getv "version_ended_at", is_current,
        r.getv "edited_by", r.getv "input_hash", r.getv "input_validated",
        vmsg, r.getv "source",
        flat.getv "inp_value", flat.getv "inp_unit",
        flat.getv "inp_start_year", flat.getv "inp_end_year",
        flat.getv "inp_input_type", flat.getv "inp_timeframe",
        flat.getv "inp_dosing_type", flat.getv "inp_actuals_flag",
        flat.getv "inp_curve_type", flat.getv "inp_selected_output",
        flat.getv "inp_pfs_flag", flat.getv "inp_ppc_flag",
        flat.getv "input_data_full_text"]

def transform_node_data (rows : List Rec) : Except PyErr (List (List PyVal)) :=
  rows.mapM transform_node_data_row

def transform_run_row (r : Rec) : Except PyErr (List PyVal) := do
  let run_id ← r.index "run_id"
  let scen ← r.index "scenario_id"
  pure [run_id, scen,
        r.getv "run_status", r.getv "run_at", r.getv "run_by",
        r.getv "run_complete_at", r.getv "run_duration_minutes",
        r.getv "fail_reason",
        or_zero (r.getv "branch_count"),
        or_zero (r.getv "total_nodes_processed"),
        or_zero (r.getv "nodes_success"),
        or_zero (r.getv "nodes_failed"),
        or_zero (r.getv "nodes_timeout")]

def transform_runs (rows : List Rec) : Except PyErr (List (List PyVal)) :=
  rows.mapM transform_run_row

def transform_node_calc_row (r : Rec) : Except PyErr (List PyVal) := do
  let idv ← r.index "id"
  let run_id ← r.index "run_id"
  let scen ← r.index "scenario_id"
  pure [idv, run_id, scen,
        r.getv "branch_id", r.getv "event_tag", r.getv "model_node_id",
        r.getv "node_display_name", r.getv "node_type",
        r.getv "calc_status", r.getv "fail_reason",
        r.getv "processing_start_at", r.getv "processing_end_at",
        r.getv "processing_duration_s", r.getv "output_data_text"]

def transform_node_calc (rows : List Rec) : Except PyErr (List (List PyVal)) :=
  rows.mapM transform_node_calc_row

def transform_event_data_row (r : Rec) : Except PyErr (List PyVal) := do
  let event_data ← r.index "event_data"
  let flat := flatten_event_data event_data
  let ve ← r.index "version_ended_at"
  let is_current := PyVal.bool (py_is_none ve)
  let idv ← r.index "id"
  let scen ← r.index "scenario_id"
  let vsa ← r.index "version_started_at"
  pure [idv, scen,
        r.getv "event_type_name", r.getv "is_inherent",
        r.getv "population_node_name", r.getv "parent_product_name",
        vsa, r.getv "version_ended_at", is_current,
        r.getv "edited_by", r.getv "event_data_hash",
        r.getv "is_overridden", r.getv "override_data_text",
        r.getv "is_validated", r.getv "validation_message",
        flat.getv "evt_year", flat.getv "evt_share_value",
        flat.getv "evt_entry_quarter", flat.getv "evt_erosion_rate",
        flat.getv "evt_launch_date", flat.getv "evt_steady_state",
        flat.getv "evt_sob_value", flat.getv "event_data_full_text"]

def transform_event_data (rows : List Rec) : Except PyErr (List (List PyVal)) :=
  rows.mapM transform_event_data_row

def transform_timeline_row (r : Rec) : Except PyErr (List PyVal) := do
  let scen ← r.index "scenario_id"
  let etime ← r.index "event_time"
  let etype ← r.index "event_type"
  pure [scen, etime, etype,
        r.getv "event_category", r.getv "actor", r.getv "description",
        r.getv "run_id", r.getv "node_name", r.getv "event_type_name",
        r.getv "source_key"]

def transform_timeline (rows : List Rec) : Except PyErr (List (List PyVal)) :=
  rows.mapM transform_timeline_row

/-! ## extract.py — the watermark store

Only `get_watermark` / `update_watermark` carry pipeline logic; the six
`extract_*` functions are SQL sent to the source collaborator and appear
in the cycle model as an oracle (`DbEnv.source_rows`). -/

/-- `datetime(2020, 1, 1)` as Unix seconds: the fixed default epoch
returned when no cursor row exists. -/
def DEFAULT_EPOCH : Int := 1577836800

/-- One row of the `etl_watermark` table. -/
structure WatermarkRow where
  last_fetched_at : Int
  rows_last_run : Int
  last_run_at : Option Int
  total_rows_ever : Int
  deriving DecidableEq

/-- `get_watermark`: last processed timestamp minus the safety overlap
when the cursor row exists, else the fixed default epoch. -/
def get_watermark (row : Option WatermarkRow) : Int :=
  match row with
  | some r => r.last_fetched_at - OVERLAP_SEC
  | Option.none => DEFAULT_EPOCH

/-- `update_watermark`: `SET last_fetched_at = NOW(), rows_last_run = n,
last_run_at = NOW(), total_rows_ever = total_rows_ever + n WHERE
table_name = ...` — an UPDATE, so a no-op when no row exists. -/
def update_watermark (now : Int) (rows_fetched : Int) (row : Option WatermarkRow) : Option WatermarkRow :=
  match row with
  | some r => some { last_fetched_at := now, rows_last_run := rows_fetched,
                     last_run_at := some now,
                     total_rows_ever := r.total_rows_ever + rows_fetched }
  | Option.none => Option.none

/-! ## db.py / load.py — target tables and the three write policies

A stored row is an association list column-name ↦ value; a table is the
list of its rows in insertion order (surrogate BIGSERIAL ids are not
modelled).  `ON CONFLICT` compares the dedup-key column. -/

/-- Overwrite one column of a stored row. -/
def setCol (r : Rec) (c : String) (v : PyVal) : Rec :=
  (c, v) :: r.filter (fun p => p.1 != c)

/-- Pair an INSERT column list with one VALUES tuple. -/
def row_of_tuple (cols : List String) (vals : List PyVal) : Rec :=
  cols.zip vals

/-- `psycopg2.extras.execute_values` + commit on the target connection:
an empty batch short-circuits before any connection is taken; otherwise
the statement semantics `apply_sql` is applied per tuple and the call
returns `len(rows)`.  The Bool records whether any I/O was performed. -/
def executemany_target (apply_sql : α → List PyVal → α) (rows : List (List PyVal)) (db : α) :
    α × Nat × Bool :=
  if rows.isEmpty then (db, 0, false)
  else (rows.foldl apply_sql db, rows.length, true)

/-- The `DO UPDATE SET` clause applied to a conflicting stored row `r`:
`c = EXCLUDED.c` for every `c ∈ updateCols`, plus `updateStamp = NOW()`. -/
def conflict_update (updateCols : List String) (updateStamp : String) (now : Int)
    (incoming : Rec) (r : Rec) : Rec :=
  setCol (updateCols.foldl (fun acc c => setCol acc c (incoming.getv c)) r)
    updateStamp (.intv now)

/-- `INSERT ... ON CONFLICT (keyCol) DO UPDATE SET c = EXCLUDED.c` for
`c ∈ updateCols` plus `updateStamp = NOW()`; a fresh insert receives the
schema-default `NOW()` stamps `stampCols`. -/
def apply_upsert (keyCol : String) (updateCols : List String) (stampCols : List String)
    (updateStamp : String) (now : Int) (tbl : List Rec) (incoming : Rec) : List Rec :=
  if tbl.any (fun r => PyVal.beq (r.getv keyCol) (incoming.getv keyCol)) then
    tbl.map (fun r =>
      if PyVal.beq (r.getv keyCol) (incoming.getv keyCol) then
        conflict_update updateCols updateStamp now incoming r
      else r)
  else
    tbl ++ [stampCols.foldl (fun acc c => setCol acc c (.intv now)) incoming]

/-- `INSERT ... ON CONFLICT (keyCol) DO NOTHING`. -/
def apply_insert_dedup (keyCol : String) (stampCols : List String) (now : Int)
    (tbl : List Rec) (incoming : Rec) : List Rec :=
  if tbl.any (fun r => PyVal.beq (r.getv keyCol) (incoming.getv keyCol)) then tbl
  else tbl ++ [stampCols.foldl (fun acc c => setCol acc c (.intv now)) incoming]

def dim_scenario_cols : List String :=
  ["scenario_id", "scenario_display_name", "scenario_status", "is_starter",
   "currency", "currency_code", "scenario_start_year", "scenario_end_year",
   "scenario_region_name", "scenario_country_name",
   "created_at", "created_by", "submitted_at", "submitted_by",
   "locked_at", "locked_by", "updated_at", "updated_by",
   "withdraw_at", "withdraw_by", "delete_at",
   "model_id", "model_display_name", "model_type", "model_publish_level",
   "therapeutic_area_name", "disease_area_name", "loe_enabled",
   "model_region_name", "model_country_name",
   "forecast_cycle_name", "forecast_cycle_start", "forecast_cycle_end",
   "horizon_start_limit", "horizon_end_limit", "starter_created"]

def dim_scenario_update_cols : List String :=
  ["scenario_status", "submitted_at", "submitted_by", "locked_at", "locked_by",
   "updated_at", "updated_by", "withdraw_at", "withdraw_by", "delete_at"]

/-- `load_scenarios`: UPSERT on `scenario_id`, overwriting the mutable
lifecycle subset and `etl_updated_at = NOW()`. -/
def load_scenarios (now : Int) (rows : List (List PyVal)) (tbl : List Rec) :
    List Rec × Nat × Bool :=
  if rows.isEmpty then (tbl, 0, false)
  else
    executemany_target
      (fun t vals => apply_upsert "scenario_id" dim_scenario_update_cols
        ["etl_loaded_at", "etl_updated_at"] "etl_updated_at" now t
        (row_of_tuple dim_scenario_cols vals))
      rows tbl

def node_history_cols : List String :=
  ["source_id", "scenario_id", "model_node_id",
   "node_display_name", "node_type", "tab_name", "tab_level",
   "group_name", "group_type", "node_seq", "flow",
   "version_started_at", "version_ended_at", "is_current_version",
   "edited_by", "input_hash", "input_validated", "validation_message",
   "data_source",
   "inp_value", "inp_unit", "inp_start_year", "inp_end_year",
   "inp_input_type", "inp_timeframe", "inp_dosing_type", "inp_actuals_flag",
   "inp_curve_type", "inp_selected_output", "inp_pfs_flag", "inp_ppc_flag",
   "input_data_full_text"]

def node_history_update_cols : List String :=
  ["version_ended_at", "is_current_version", "input_validated", "validation_message"]

/-- `load_node_data`: INSERT keyed by `source_id`; on conflict update only
the version-closing and validation fields plus `etl_loaded_at = NOW()`. -/
def load_node_data (now : Int) (rows : List (List PyVal)) (tbl : List Rec) :
    List Rec × Nat × Bool :=
  if rows.isEmpty then (tbl, 0, false)
  else
    executemany_target
      (fun t vals => apply_upsert "source_id" node_history_update_cols
        ["etl_loaded_at"] "etl_loaded_at" now t
        (row_of_tuple node_history_cols vals))
      rows tbl

def run_summary_cols : List String :=
  ["run_id", "scenario_id", "run_status", "run_at", "run_by",
   "run_complete_at", "run_duration_minutes", "fail_reason",
   "branch_count", "total_nodes_processed",
   "nodes_success", "nodes_failed", "nodes_timeout"]

def run_summary_update_cols : List String :=
  ["run_status", "run_complete_at", "run_duration_minutes", "fail_reason",
   "branch_count", "total_nodes_processed",
   "nodes_success", "nodes_failed", "nodes_timeout"]

/-- `load_runs`: UPSERT on `run_id`. -/
def load_runs (now : Int) (rows : List (List PyVal)) (tbl : List Rec) :
    List Rec × Nat × Bool :=
  if rows.isEmpty then (tbl, 0, false)
  else
    executemany_target
      (fun t vals => apply_upsert "run_id" run_summary_update_cols
        ["etl_loaded_at", "etl_updated_at"] "etl_updated_at" now t
        (row_of_tuple run_summary_cols vals))
      rows tbl

def node_calc_cols : List String :=
  ["source_id", "run_id", "scenario_id", "branch_id", "event_tag",
   "model_node_id", "node_display_name", "node_type",
   "calc_status", "fail_reason",
   "processing_start_at", "processing_end_at", "processing_duration_s",
   "output_data_text"]

/-- `load_node_calc`: INSERT ONLY with dedup on `source_id`
(`ON CONFLICT DO NOTHING`). -/
def load_node_calc (now : Int) (rows : List (List PyVal)) (tbl : List Rec) :
    List Rec × Nat × Bool :=
  if rows.isEmpty then (tbl, 0, false)
  else
    executemany_target
      (fun t vals => apply_insert_dedup "source_id" ["etl_loaded_at"] now t
        (row_of_tuple node_calc_cols vals))
      rows tbl

def event_history_cols : List String :=
  ["source_id", "scenario_id", "event_type_name", "is_inherent",
   "population_node_name", "parent_product_name",
   "version_started_at", "version_ended_at", "is_current_version",
   "edited_by", "event_data_hash", "is_overridden", "override_data_text",
   "is_validated", "validation_message",
   "evt_year", "evt_share_value", "evt_entry_quarter", "evt_erosion_rate",
   "evt_launch_date", "evt_steady_state", "evt_sob_value",
   "event_data_full_text"]

def event_history_update_cols : List String :=
  ["version_ended_at", "is_current_version", "is_validated", "validation_message"]

/-- `load_event_data`: same pattern as `load_node_data` on `source_id`. -/
def load_event_data (now : Int) (rows : List (List PyVal)) (tbl : List Rec) :
    List Rec × Nat × Bool :=
  if rows.isEmpty then (tbl, 0, false)
  else
    executemany_target
      (fun t vals => apply_upsert "source_id" event_history_update_cols
        ["etl_loaded_at"] "etl_loaded_at" now t
        (row_of_tuple event_history_cols vals))
      rows tbl

def timeline_cols : List String :=
  ["scenario_id", "event_time", "event_type", "event_category",
   "actor", "description", "run_id", "node_name", "event_type_name",
   "source_key"]

/-- `load_timeline`: INSERT ONLY with dedup on `source_key`. -/
def load_timeline (now : Int) (rows : List (List PyVal)) (tbl : List Rec) :
    List Rec × Nat × Bool :=
  if rows.isEmpty then (tbl, 0, false)
  else
    executemany_target
      (fun t vals => apply_insert_dedup "source_key" ["etl_loaded_at"] now t
        (row_of_tuple timeline_cols vals))
      rows tbl

/-! ## pipeline.py — one ETL cycle

`run_cycle` runs six entity types in a fixed order; each entity's
extract → transform → load → update_watermark unit sits in its own
`try/except Exception` block.  The two relational stores are supplied by
an oracle `DbEnv`: `source_rows` is what the source collaborator answers
for a given `since` (the bodies of the `extract_*` SQL queries are the
collaborator's concern), and the four `*_fails` flags mark the points
where a store round-trip can raise. -/

inductive Entity where
  | scenarios
  | node_data
  | runs
  | node_calc
  | event_data
  | timeline
  deriving DecidableEq

/-- The `table_name` key under which each entity's cursor row lives. -/
def watermark_key : Entity → String
  | .scenarios => "public.fc_scenario"
  | .node_data => "public.fc_scenario_node_data"
  | .runs => "public.fc_scenario_run"
  | .node_calc => "public.fc_scenario_node_calc"
  | .event_data => "public.fc_scenario_event_data"
  | .timeline => "timeline"

/-- Fixed processing order of `run_cycle` (steps 1–6). -/
def entity_order : List Entity :=
  [.scenarios, .node_data, .runs, .node_calc, .event_data, .timeline]

/-- The per-entity transform used in the corresponding step. -/
def transform_for : Entity → List Rec → Except PyErr (List (List PyVal))
  | .scenarios => transform_scenarios
  | .node_data => transform_node_data
  | .runs => transform_runs
  | .node_calc => transform_node_calc
  | .event_data => transform_event_data
  | .timeline => transform_timeline

/-- The six target tables. -/
structure TargetDB where
  dim_scenario : List Rec
  fact_node_input_history : List Rec
  fact_run_summary : List Rec
  fact_node_calc_results : List Rec
  fact_event_input_history : List Rec
  fact_scenario_timeline : List Rec

/-- The per-entity loader, applied to its own table. -/
def load_for (e : Entity) (now : Int) (rows : List (List PyVal)) (db : TargetDB) :
    TargetDB × Nat × Bool :=
  match e with
  | .scenarios =>
      let r := load_scenarios now rows db.dim_scenario
      ({ db with dim_scenario := r.1 }, r.2)
  | .node_data =>
      let r := load_node_data now rows db.fact_node_input_history
      ({ db with fact_node_input_history := r.1 }, r.2)
  | .runs =>
      let r := load_runs now rows db.fact_run_summary
      ({ db with fact_run_summary := r.1 }, r.2)
  | .node_calc =>
      let r := load_node_calc now rows db.fact_node_calc_results
      ({ db with fact_node_calc_results := r.1 }, r.2)
  | .event_data =>
      let r := load_event_data now rows db.fact_event_input_history
      ({ db with fact_event_input_history := r.1 }, r.2)
  | .timeline =>
      let r := load_timeline now rows db.fact_scenario_timeline
      ({ db with fact_scenario_timeline := r.1 }, r.2)

/-- Pipeline state: the persisted watermark rows and the target tables. -/
structure EtlState where
  watermarks : Entity → Option WatermarkRow
  target : TargetDB

/-- Oracle for one invocation of `run_cycle`: what the stores do at each
round-trip of each entity's step. -/
structure DbEnv where
  source_rows : Entity → Int → List Rec
  get_wm_fails : Entity → Bool
  extract_fails : Entity → Bool
  load_fails : Entity → Bool
  commit_fails : Entity → Bool
  now : Entity → Int

/-- Outcome of one entity's try-block body (`.ok n` = the step ran to the
end of `update_watermark` without raising, having written `n` rows;
`.error e` = some statement in the body raised `e`, which the enclosing
`except Exception` catches and logs).  It reads only this entity's own
watermark row and oracles. -/
def entity_outcome (env : DbEnv) (e : Entity) (wr : Option WatermarkRow) : Except PyErr Nat :=
  if env.get_wm_fails e then .error .dbError
  else if env.extract_fails e then .error .dbError
  else
    let rows := env.source_rows e (get_watermark wr)
    let body : Except PyErr Nat :=
      if rows.isEmpty then .ok 0
      else
        match transform_for e rows with
        | .error er => .error er
        | .ok tuples =>
            if env.load_fails e then .error .dbError
            else .ok tuples.length
    match body with
    | .error er => .error er
    | .ok n => if env.commit_fails e then .error .dbError else .ok n

/-- The tuples that actually reached the target store in this entity's
step (`none` when the step failed before or during the batch write, which
rolls back; `some []` when the extract was empty and the load was
skipped).  A load that succeeded persists even if `update_watermark`
raises afterwards. -/
def entity_loaded (env : DbEnv) (e : Entity) (wr : Option WatermarkRow) :
    Option (List (List PyVal)) :=
  if env.get_wm_fails e then Option.none
  else if env.extract_fails e then Option.none
  else
    let rows := env.source_rows e (get_watermark wr)
    if rows.isEmpty then some []
    else
      match transform_for e rows with
      | .error _ => Option.none
      | .ok tuples => if env.load_fails e then Option.none else some tuples

/-- Whether the body got as far as calling `update_watermark` and that
UPDATE committed (i.e. the try block completed). -/
def entity_committed (env : DbEnv) (e : Entity) (wr : Option WatermarkRow) : Bool :=
  match entity_outcome env e wr with
  | .ok _ => true
  | .error _ => false

/-- One numbered step of `run_cycle`: perform the persistent effects of
this entity's try-block on the state and report the caught-or-ok result. -/
def run_entity_step (env : DbEnv) (e : Entity) (st : EtlState) :
    EtlState × Except PyErr Nat :=
  let wr := st.watermarks e
  let target' :=
    match entity_loaded env e wr with
    | some tuples =>
        if tuples.isEmpty then st.target else (load_for e (env.now e) tuples st.target).1
    | Option.none => st.target
  let wms' :=
    if entity_committed env e wr then
      fun x => if x = e then
        update_watermark (env.now e) (env.source_rows e (get_watermark wr)).length wr
      else st.watermarks x
    else st.watermarks
  (⟨wms', target'⟩, entity_outcome env e wr)

/-- `run_cycle`: the six steps in order, each failure caught and logged,
never propagating; returns the final state and the per-entity results. -/
def run_cycle (env : DbEnv) (st : EtlState) :
    EtlState × List (Entity × Except PyErr Nat) :=
  entity_order.foldl
    (fun acc e =>
      let r := run_entity_step env e acc.1
      (r.1, acc.2 ++ [(e, r.2)]))
    (st, [])

/-! ## scheduler.py — the poll loop

One iteration of the `while True`: the `try` wraps only `run_cycle()`;
`except KeyboardInterrupt` does `sys.exit(0)`; `except Exception` counts
consecutive failures and escalates past the threshold; `time.sleep` runs
after the try/except — outside it. -/

def MAX_CONSECUTIVE_FAILURES : Nat := 10

structure SchedState where
  consecutive_failures : Nat
  deriving DecidableEq

/-- How the `run_cycle()` call inside the try behaves this iteration. -/
inductive CycleOutcome where
  | ok (total_rows : Nat)
  | raised
  deriving DecidableEq

/-- Where (if anywhere) a KeyboardInterrupt is delivered during the
iteration.  `during_sleep` is the window between two cycles. -/
inductive InterruptAt where
  | nofire
  | during_cycle
  | during_sleep
  deriving DecidableEq

/-- Result of one loop iteration. -/
inductive IterResult where
  /-- Loop continues: new counter, whether the high-severity escalation
  fired, and whether the fixed-interval sleep ran. -/
  | next (st : SchedState) (escalated : Bool) (slept : Bool)
  /-- `sys.exit(0)` from the `except KeyboardInterrupt` handler. -/
  | clean_exit (code : Nat)
  /-- An exception escaped `main()` (process dies with a traceback and a
  non-zero exit status). -/
  | uncaught_interrupt
  deriving DecidableEq

/-- One iteration of the scheduler loop. A KeyboardInterrupt raised while
`run_cycle()` is executing propagates through the per-entity
`except Exception` blocks (KeyboardInterrupt is not an `Exception`) into
the scheduler's `except KeyboardInterrupt`, which exits with status 0.
One raised during `time.sleep` is outside the try/except and escapes. -/
def scheduler_iteration (st : SchedState) (outcome : CycleOutcome) (intr : InterruptAt) :
    IterResult :=
  match intr with
  | .during_cycle => .clean_exit 0
  | .during_sleep => .uncaught_interrupt
  | .nofire =>
      match outcome with
      | .ok _ => .next ⟨0⟩ false true
      | .raised =>
          let f := st.consecutive_failures + 1
          .next ⟨f⟩ (if MAX_CONSECUTIVE_FAILURES ≤ f then true else false) true

/-! ## Concrete test fixtures used by counterexamples and witnesses -/

/-- The column list of `extract_node_data`'s SELECT, in order — the exact
key set of every row dict that `transform_node_data` receives (note
`input_validation_message` is NOT aliased, unlike in
`extract_event_data` where it is selected `AS validation_message`). -/
def node_data_select_cols : List String :=
  ["id", "scenario_id", "model_node_id", "input_data", "input_hash",
   "input_validated", "input_validation_message", "source",
   "version_started_at", "version_ended_at", "edited_by",
   "node_display_name", "node_type", "node_seq", "flow",
   "group_name", "group_type", "group_seq",
   "tab_name", "tab_level", "tab_seq"]

/-- A node-data record exactly as extracted (all 21 SELECT columns
present) whose `input_validation_message` is a non-null string. -/
def c1_failing_record : Rec :=
  [("id", .str "nd-1"), ("scenario_id", .str "sc-1"), ("model_node_id", .str "mn-1"),
   ("input_data", .dict [("value", .intv 4)]), ("input_hash", .str "h1"),
   ("input_validated", .bool false),
   ("input_validation_message", .str "value out of range"), ("source", .str "ui"),
   ("version_started_at", .intv 1700000000), ("version_ended_at", .none),
   ("edited_by", .str "alice"),
   ("node_display_name", .str "Node A"), ("node_type", .str "input"),
   ("node_seq", .intv 1), ("flow", .str "main"),
   ("group_name", .str "G"), ("group_type", .str "std"), ("group_seq", .intv 1),
   ("tab_name", .str "Tab"), ("tab_level", .intv 1), ("tab_seq", .intv 1)]

/-- The same record with a null `input_validation_message` (and an empty
payload). -/
def c1_ok_record : Rec :=
  [("id", .str "nd-1"), ("scenario_id", .str "sc-1"), ("model_node_id", .str "mn-1"),
   ("input_data", .dict []), ("input_hash", .str "h1"),
   ("input_validated", .bool true),
   ("input_validation_message", .none), ("source", .str "ui"),
   ("version_started_at", .intv 1700000000), ("version_ended_at", .none),
   ("edited_by", .str "alice"),
   ("node_display_name", .str "Node A"), ("node_type", .str "input"),
   ("node_seq", .intv 1), ("flow", .str "main"),
   ("group_name", .str "G"), ("group_type", .str "std"), ("group_seq", .intv 1),
   ("tab_name", .str "Tab"), ("tab_level", .intv 1), ("tab_seq", .intv 1)]

/-- A payload with one known and one unknown key. -/
def c4_payload : List (String × PyVal) :=
  [("value", .intv 4), ("mystery", .str "kept")]

/-- First offer of a node-input version: open version
(`version_ended_at = NULL`, `is_current_version = TRUE`), 32 values in
`node_history_cols` order. -/
def c7_tuple1 : List PyVal :=
  [.str "nd-1", .str "sc-1", .str "mn-1",
   .str "Node A", .str "input", .str "Tab", .intv 1,
   .str "G", .str "std", .intv 1, .str "main",
   .intv 1700000000, .none, .bool true,
   .str "alice", .str "h1", .bool true, .none,
   .str "ui",
   .floatv 4, .str "mg", .intv 2024, .intv 2030,
   .str "absolute", .str "year", .str "fixed", .bool false,
   .str "linear", .str "out", .bool false, .bool true,
   .str "payload-json"]

/-- Re-offer of the same record after the source closed the version:
`version_ended_at = 1700000500`, `is_current_version = FALSE`, new
validation state; every other value identical. -/
def c7_tuple2 : List PyVal :=
  [.str "nd-1", .str "sc-1", .str "mn-1",
   .str "Node A", .str "input", .str "Tab", .intv 1,
   .str "G", .str "std", .intv 1, .str "main",
   .intv 1700000000, .intv 1700000500, .bool false,
   .str "alice", .str "h1", .bool false, .str "late check",
   .str "ui",
   .floatv 4, .str "mg", .intv 2024, .intv 2030,
   .str "absolute", .str "year", .str "fixed", .bool false,
   .str "linear", .str "out", .bool false, .bool true,
   .str "payload-json"]

/-- A timeline tuple (10 values in `timeline_cols` order) with dedup key
`source_key = "SC_sc-1"`. -/
def c10_tuple : List PyVal :=
  [.str "sc-1", .intv 1700000000, .str "SCENARIO_CREATED", .str "LIFECYCLE",
   .str "alice", .str "Scenario created", .none, .none, .none,
   .str "SC_sc-1"]

/-- A cycle-oracle where every store round-trip succeeds and every
extract returns no rows; the wall clock reads 2000 at each commit. -/
def env_all_ok : DbEnv where
  source_rows := fun _ _ => []
  get_wm_fails := fun _ => false
  extract_fails := fun _ => false
  load_fails := fun _ => false
  commit_fails := fun _ => false
  now := fun _ => 2000

/-- Same oracle except the scenarios extractor raises. -/
def env_scen_fails : DbEnv where
  source_rows := fun _ _ => []
  get_wm_fails := fun _ => false
  extract_fails := fun e => match e with | .scenarios => true | _ => false
  load_fails := fun _ => false
  commit_fails := fun _ => false
  now := fun _ => 2000

/-- An initial state: every entity's cursor row exists with
`last_fetched_at = 1000`, all target tables empty. -/
def st_init : EtlState where
  watermarks := fun _ => some ⟨1000, 0, Option.none, 0⟩
  target := ⟨[], [], [], [], [], []⟩

/-! ## Helper lemmas -/

theorem py_float_err_shape (v : PyVal) (e : PyErr) (h : py_float v = .error e) :
    e = .valueError ∨ e = .typeError := by
  cases v <;> simp [py_float] at h <;>
    first
      | exact Or.inr h.symm
      | exact Or.inl h.symm
      | (revert h
         cases parse_float_string _ <;> (simp; try (intro h; simp [h])))

theorem py_int_err_shape (v : PyVal) (e : PyErr) (h : py_int v = .error e) :
    e = .valueError ∨ e = .typeError := by
  cases v <;> simp [py_int] at h <;>
    first
      | exact Or.inr h.symm
      | exact Or.inl h.symm
      | (revert h
         cases parse_int_string _ <;> (simp; try (intro h; simp [h])))

/-! ## Claims -/

/-- C5: for every entity, `get_watermark` returns `last_committed_at`
minus the configured overlap window (`OVERLAP_SEC`, 90 s) when a cursor
row exists for that entity, and the fixed default epoch (2020-01-01)
when no cursor row exists. -/
theorem claim5_get_watermark_spec :
    (∀ r : WatermarkRow, get_watermark (some r) = r.last_fetched_at - OVERLAP_SEC) ∧
    get_watermark Option.none = DEFAULT_EPOCH ∧
    OVERLAP_SEC = 90 ∧ DEFAULT_EPOCH = 1577836800 :=
  ⟨fun _ => rfl, rfl, rfl, rfl⟩

/-- C8: the claim states that a KeyboardInterrupt delivered between
cycles exits the loop cleanly with status zero.  In the code the
`try/except KeyboardInterrupt` wraps only `run_cycle()`; the
between-cycles window is `time.sleep(POLL_INTERVAL_SEC)`, which sits
after (outside) the `try/except`, so an interrupt there escapes `main()`
uncaught — only an interrupt delivered while `run_cycle()` is executing
reaches the `sys.exit(0)` handler. -/
theorem claim8_interrupt_in_sleep_uncaught :
    scheduler_iteration ⟨0⟩ (.ok 0) .during_sleep = .uncaught_interrupt ∧
    scheduler_iteration ⟨3⟩ .raised .during_sleep = .uncaught_interrupt ∧
    scheduler_iteration ⟨0⟩ (.ok 0) .during_cycle = .clean_exit 0 :=
  ⟨rfl, rfl, rfl⟩

/-- C9: in every iteration, `consecutive_failures` resets to zero when
`run_cycle` returns and increments by one when it raises; when the
counter reaches the threshold (10) the high-severity escalation fires
but the loop continues (`.next`); and the fixed-interval sleep runs in
both cases. -/
theorem claim9_scheduler_counter_spec :
    (∀ st : SchedState, ∀ n : Nat,
      scheduler_iteration st (.ok n) .nofire = .next ⟨0⟩ false true) ∧
    (∀ st : SchedState, ∃ st' : SchedState, ∃ esc : Bool,
      scheduler_iteration st .raised .nofire = .next st' esc true ∧
      st'.consecutive_failures = st.consecutive_failures + 1 ∧
      (esc = true ↔ MAX_CONSECUTIVE_FAILURES ≤ st.consecutive_failures + 1)) ∧
    MAX_CONSECUTIVE_FAILURES = 10 := by
  refine ⟨fun st n => rfl, fun st => ?_, rfl⟩
  refine ⟨⟨st.consecutive_failures + 1⟩,
    (if MAX_CONSECUTIVE_FAILURES ≤ st.consecutive_failures + 1 then true else false),
    rfl, rfl, ?_⟩
  by_cases h : MAX_CONSECUTIVE_FAILURES ≤ st.consecutive_failures + 1 <;> simp [h]


/-- C6 counterexample: the claim says every coercion returns null (None)
on unparseable input; `safe_bool` on a string that is no recognised
boolean literal returns `False` — a fabricated value, not None. -/
theorem claim6_safe_bool_cex :
    safe_bool (.str "banana") = .bool false ∧ PyVal.bool false ≠ PyVal.none := by
  refine ⟨rfl, ?_⟩
  intro h
  cases h

/-- C6 (amended): `safe_bool`, `safe_numeric` and `safe_int` never raise
(`float()`/`int()` can only raise the `ValueError`/`TypeError` that the
`except` clauses catch); `safe_bool` accepts case-insensitive
"true"/"1"/"yes"; `safe_numeric` and `safe_int` return None on
unparseable input; but `safe_bool` returns `False` — not None — for any
other string, and Python truthiness for non-bool non-string values; it
returns None only for a None input. -/
theorem claim6_coercions_amended :
    (∀ v : PyVal, ∀ e : PyErr, py_float v = .error e → e = .valueError ∨ e = .typeError) ∧
    (∀ v : PyVal, ∀ e : PyErr, py_int v = .error e → e = .valueError ∨ e = .typeError) ∧
    (∀ v : PyVal, ∀ e : PyErr, py_float v = .error e → safe_numeric v = PyVal.none) ∧
    (∀ v : PyVal, ∀ e : PyErr, py_int v = .error e → safe_int v = PyVal.none) ∧
    (∀ s : String, ∀ q : Rat, parse_float_string s = some q → safe_numeric (.str s) = .floatv q) ∧
    (∀ s : String, ∀ n : Int, parse_int_string s = some n → safe_int (.str s) = .intv n) ∧
    (∀ s : String, ["true", "1", "yes"].contains (py_lower s) = true → safe_bool (.str s) = .bool true) ∧
    (∀ s : String, safe_bool (.str s) = .bool (["true", "1", "yes"].contains (py_lower s))) ∧
    (∀ v : PyVal, safe_bool v = PyVal.none ↔ v = PyVal.none) := by
  refine ⟨py_float_err_shape, py_int_err_shape, ?_, ?_, ?_, ?_, ?_, ?_, ?_⟩
  · intro v e h
    cases v
    case str s =>
      have h1 : safe_numeric (.str s) =
          (match py_float (.str s) with
           | .ok q => PyVal.floatv q
           | .error PyErr.valueError => PyVal.none
           | .error PyErr.typeError => PyVal.none
           | .error _ => PyVal.none) := rfl
      rw [h1, h]
      cases e <;> rfl
    all_goals first
      | rfl
      | exact absurd h (by simp [py_float])
  · intro v e h
    cases v
    case str s =>
      have h1 : safe_int (.str s) =
          (match py_int (.str s) with
           | .ok n => PyVal.intv n
           | .error PyErr.valueError => PyVal.none
           | .error PyErr.typeError => PyVal.none
           | .error _ => PyVal.none) := rfl
      rw [h1, h]
      cases e <;> rfl
    all_goals first
      | rfl
      | exact absurd h (by simp [py_int])
  · intro s q h
    have h1 : safe_numeric (.str s) =
        (match py_float (.str s) with
         | .ok q => PyVal.floatv q
         | .error PyErr.valueError => PyVal.none
         | .error PyErr.typeError => PyVal.none
         | .error _ => PyVal.none) := rfl
    rw [h1]
    simp [py_float, h]
  · intro s n h
    have h1 : safe_int (.str s) =
        (match py_int (.str s) with
         | .ok n => PyVal.intv n
         | .error PyErr.valueError => PyVal.none
         | .error PyErr.typeError => PyVal.none
         | .error _ => PyVal.none) := rfl
    rw [h1]
    simp [py_int, h]
  · intro s h
    have h1 : safe_bool (.str s) = .bool (["true", "1", "yes"].contains (py_lower s)) := rfl
    rw [h1, h]
  · intro s
    rfl
  · intro v
    cases v <;> simp [safe_bool]

/-- C6 witness: the amended behaviour at concrete inputs. -/
theorem claim6_coercions_witness :
    safe_bool (.str "TRUE") = .bool true ∧
    safe_numeric (.str "abc") = PyVal.none ∧
    safe_int (.str "x2") = PyVal.none := by
  refine ⟨?_, ?_, ?_⟩
  · exact claim6_coercions_amended.2.2.2.2.2.2.1 "TRUE" rfl
  · exact claim6_coercions_amended.2.2.1 (.str "abc") .valueError rfl
  · exact claim6_coercions_amended.2.2.2.1 (.str "x2") .valueError rfl

/-- C1: the claim says `transform_node_data` returns a normalized row for
every extracted record without raising.  In the code the element
`str(r["validation_message"]) if r.get("input_validation_message") else None`
guards on the key `input_validation_message` — which `extract_node_data`
does select — but then indexes the key `validation_message`, which is not
in that extract's column list (only `extract_event_data` aliases it so).
Hence every node-data record whose `input_validation_message` is
non-null makes the transform raise `KeyError('validation_message')`,
failing the whole batch; a record with a null message transforms fine. -/
theorem claim1_transform_node_data_keyerror :
    c1_failing_record.map Prod.fst = node_data_select_cols ∧
    transform_node_data [c1_failing_record] = .error (.keyError "validation_message") ∧
    (∃ out, transform_node_data [c1_ok_record] = .ok out) :=
  ⟨rfl, rfl, ⟨_, rfl⟩⟩

theorem json_quote_infix_entries (k : String) (v : PyVal) :
    ∀ es : List (String × PyVal), (k, v) ∈ es →
      ∃ s t, s ++ json_quote k ++ t = json_dumps_entries es := by
  intro es
  induction es with
  | nil => intro h; cases h
  | cons p tl ih =>
    intro h
    cases tl with
    | nil =>
      obtain ⟨k0, v0⟩ := p
      have hp : k = k0 ∧ v = v0 := by simpa using h
      obtain ⟨rfl, rfl⟩ := hp
      exact ⟨[], ':' :: ' ' :: json_dumps_val v, by simp [json_dumps_entries]⟩
    | cons q tl2 =>
      obtain ⟨k0, v0⟩ := p
      rcases List.mem_cons.mp h with h0 | h0
      · obtain ⟨rfl, rfl⟩ : k = k0 ∧ v = v0 := by
          simpa using h0
        exact ⟨[], ':' :: ' ' :: json_dumps_val v ++ ',' :: ' ' :: json_dumps_entries (q :: tl2),
          by simp [json_dumps_entries]⟩
      · obtain ⟨s, t, hst⟩ := ih h0
        refine ⟨json_quote k0 ++ ':' :: ' ' :: json_dumps_val v0 ++ ',' :: ' ' :: s, t, ?_⟩
        simp only [json_dumps_entries, ← hst]
        simp

theorem json_quote_infix_dict (k : String) (v : PyVal) (d : List (String × PyVal))
    (h : (k, v) ∈ d) : json_quote k <:+: (json_dumps (.dict d)).toList := by
  obtain ⟨s, t, hst⟩ := json_quote_infix_entries k v d h
  refine ⟨'\x7b' :: s, t ++ ['\x7d'], ?_⟩
  have hv : (json_dumps (.dict d)).toList = '\x7b' :: json_dumps_entries d ++ ['\x7d'] := by
    simp [json_dumps, json_dumps_val]
  rw [hv, ← hst]
  simp

/-- C4 counterexample: the claim says the full payload is always
preserved serialized in the raw-fallback entry; for the empty payload
(a perfectly valid JSONB value, serialized "\x7b\x7d") both flatten
functions store None instead, because `json.dumps(d) if d else None`
takes the falsy branch. -/
theorem claim4_empty_payload_fallback_cex :
    (flatten_input_data (.dict [])).getv "input_data_full_text" = PyVal.none ∧
    (flatten_event_data (.dict [])).getv "event_data_full_text" = PyVal.none ∧
    json_dumps_val (.dict []) = ['\x7b', '\x7d'] := by
  refine ⟨rfl, rfl, ?_⟩
  simp [json_dumps_val, json_dumps_entries]

/-- C4 (amended): for every payload, each key in the known flatten set
is extracted into its typed entry (computed from the payload after the
isinstance/`json.loads` normalisation prologue), and the full normalised
payload is preserved serialized in the raw-fallback text entry whenever
that normalised payload is truthy — in particular for every non-empty
dict payload, and for string payloads parsing to a truthy JSON value —
so an unknown key is retrievable via the fallback; a falsy normalised
payload (notably the empty dict) yields a None fallback instead of its
serialization. -/
theorem claim4_flatten_amended :
    (∀ pd : PyVal,
      (flatten_input_data pd).getv "inp_value" = safe_numeric (safe_get (coerce_payload pd) "value") ∧
      (flatten_input_data pd).getv "inp_unit" = safe_get (coerce_payload pd) "unit" ∧
      (flatten_input_data pd).getv "inp_start_year" = safe_int (safe_get (coerce_payload pd) "start_year") ∧
      (flatten_input_data pd).getv "inp_end_year" = safe_int (safe_get (coerce_payload pd) "end_year") ∧
      (flatten_input_data pd).getv "inp_input_type" = safe_get (coerce_payload pd) "input_type" ∧
      (flatten_input_data pd).getv "inp_timeframe" = safe_get (coerce_payload pd) "timeframe" ∧
      (flatten_input_data pd).getv "inp_dosing_type" = safe_get (coerce_payload pd) "dosing_type" ∧
      (flatten_input_data pd).getv "inp_actuals_flag" = safe_bool (safe_get (coerce_payload pd) "actuals_flag") ∧
      (flatten_input_data pd).getv "inp_curve_type" = safe_get (coerce_payload pd) "curve_type" ∧
      (flatten_input_data pd).getv "inp_selected_output" = safe_get (coerce_payload pd) "selected_output" ∧
      (flatten_input_data pd).getv "inp_pfs_flag" = safe_bool (safe_get (coerce_payload pd) "pfs_flag") ∧
      (flatten_input_data pd).getv "inp_ppc_flag" = safe_bool (safe_get (coerce_payload pd) "ppc_flag") ∧
      (flatten_event_data pd).getv "evt_year" = safe_int (safe_get (coerce_payload pd) "year") ∧
      (flatten_event_data pd).getv "evt_share_value" = safe_numeric (safe_get (coerce_payload pd) "share_value")) ∧
    (∀ pd : PyVal, py_truthy (coerce_payload pd) = true →
      (flatten_input_data pd).getv "input_data_full_text" =
        .str (json_dumps (coerce_payload pd)) ∧
      (flatten_event_data pd).getv "event_data_full_text" =
        .str (json_dumps (coerce_payload pd))) ∧
    (∀ pd : PyVal, py_truthy (coerce_payload pd) = false →
      (flatten_input_data pd).getv "input_data_full_text" = PyVal.none ∧
      (flatten_event_data pd).getv "event_data_full_text" = PyVal.none) ∧
    (∀ d : List (String × PyVal), d ≠ [] →
      coerce_payload (.dict d) = .dict d ∧
      py_truthy (coerce_payload (.dict d)) = true) ∧
    (∀ s : String, ∀ v : PyVal, json_loads s = some v → coerce_payload (.str s) = v) ∧
    (∀ d : List (String × PyVal), ∀ k : String, ∀ v : PyVal, (k, v) ∈ d →
      json_quote k <:+: (json_dumps (.dict d)).toList) := by
  have hfi : ∀ pd : PyVal, (flatten_input_data pd).getv "input_data_full_text" =
      (if py_truthy (coerce_payload pd) then PyVal.str (json_dumps (coerce_payload pd))
       else PyVal.none) := fun pd => rfl
  have hfe : ∀ pd : PyVal, (flatten_event_data pd).getv "event_data_full_text" =
      (if py_truthy (coerce_payload pd) then PyVal.str (json_dumps (coerce_payload pd))
       else PyVal.none) := fun pd => rfl
  refine ⟨?_, ?_, ?_, ?_, ?_, ?_⟩
  · intro pd
    exact ⟨rfl, rfl, rfl, rfl, rfl, rfl, rfl, rfl, rfl, rfl, rfl, rfl, rfl, rfl⟩
  · intro pd h
    constructor
    · rw [hfi pd, h]
      rfl
    · rw [hfe pd, h]
      rfl
  · intro pd h
    constructor
    · rw [hfi pd, h]
      rfl
    · rw [hfe pd, h]
      rfl
  · intro d hd
    refine ⟨rfl, ?_⟩
    cases d with
    | nil => exact absurd rfl hd
    | cons p tl => rfl
  · intro s v h
    simp [coerce_payload, h]
  · intro d k v h
    exact json_quote_infix_dict k v d h

/-- C4 witness: the amended statement at concrete payloads — the dict
`c4_payload` with a known key ("value") and an unknown key ("mystery"),
and the string payload "5", which normalises to the truthy JSON value 5
and therefore gets a serialized, non-None fallback. -/
theorem claim4_flatten_witness :
    (flatten_input_data (.dict c4_payload)).getv "input_data_full_text" =
      .str (json_dumps (.dict c4_payload)) ∧
    (flatten_input_data (.dict c4_payload)).getv "inp_value" =
      safe_numeric (safe_get (.dict c4_payload) "value") ∧
    json_quote "mystery" <:+: (json_dumps (.dict c4_payload)).toList ∧
    (flatten_input_data (.str "5")).getv "input_data_full_text" =
      .str (json_dumps (.intv 5)) := by
  refine ⟨?_, ?_, ?_, ?_⟩
  · exact (claim4_flatten_amended.2.1 (.dict c4_payload) rfl).1
  · exact (claim4_flatten_amended.1 (.dict c4_payload)).1
  · exact claim4_flatten_amended.2.2.2.2.2 c4_payload "mystery" (.str "kept")
      (by simp [c4_payload])
  · exact (claim4_flatten_amended.2.1 (.str "5") rfl).1

theorem getv_setCol_same (r : Rec) (c : String) (v : PyVal) :
    (setCol r c v).getv c = v := by
  simp [setCol, Rec.getv, List.lookup]

theorem lookup_filter_ne (r : Rec) (c k : String) (h : k ≠ c) :
    List.lookup k (r.filter (fun p => p.1 != c)) = List.lookup k r := by
  induction r with
  | nil => rfl
  | cons p tl ih =>
      obtain ⟨a, w⟩ := p
      by_cases ha : a = c
      · subst ha
        have hk : (k == a) = false := by simp [h]
        simp [List.filter, List.lookup, hk, ih]
      · have ha' : (a != c) = true := by simp [ha]
        by_cases hk : k = a
        · subst hk
          simp [List.filter, List.lookup, ha']
        · have hk' : (k == a) = false := by simp [hk]
          simp [List.filter, List.lookup, ha', hk', ih]

theorem getv_setCol_ne (r : Rec) (c k : String) (v : PyVal) (h : k ≠ c) :
    (setCol r c v).getv k = r.getv k := by
  have hk : (k == c) = false := by simp [h]
  simp [setCol, Rec.getv, List.lookup, hk, lookup_filter_ne r c k h]

theorem getv_fold_set_not_mem (cols : List String) (incoming : Rec) (c : String) :
    ∀ r : Rec, c ∉ cols →
      (cols.foldl (fun acc x => setCol acc x (incoming.getv x)) r).getv c = r.getv c := by
  induction cols with
  | nil => intro r _; rfl
  | cons a tl ih =>
      intro r h
      have hne : c ≠ a := fun e => h (e ▸ List.mem_cons_self a tl)
      have htl : c ∉ tl := fun hm => h (List.mem_cons_of_mem _ hm)
      calc (List.foldl (fun acc x => setCol acc x (incoming.getv x)) (setCol r a (incoming.getv a)) tl).getv c
          = (setCol r a (incoming.getv a)).getv c := ih _ htl
        _ = r.getv c := getv_setCol_ne _ _ _ _ hne

theorem getv_fold_set_mem (cols : List String) (incoming : Rec) (c : String) :
    ∀ r : Rec, c ∈ cols →
      (cols.foldl (fun acc x => setCol acc x (incoming.getv x)) r).getv c = incoming.getv c := by
  induction cols with
  | nil => intro r h; cases h
  | cons a tl ih =>
      intro r h
      by_cases hm : c ∈ tl
      · exact ih _ hm
      · have hc : c = a := by
          rcases List.mem_cons.mp h with h1 | h1
          · exact h1
          · exact absurd h1 hm
        subst hc
        calc (List.foldl (fun acc x => setCol acc x (incoming.getv x)) (setCol r c (incoming.getv c)) tl).getv c
            = (setCol r c (incoming.getv c)).getv c := getv_fold_set_not_mem tl incoming c _ hm
          _ = incoming.getv c := getv_setCol_same _ _ _

theorem conflict_update_stamp (ucols : List String) (stamp : String) (now : Int)
    (incoming r : Rec) :
    (conflict_update ucols stamp now incoming r).getv stamp = .intv now :=
  getv_setCol_same _ _ _

theorem conflict_update_updated (ucols : List String) (stamp : String) (now : Int)
    (incoming r : Rec) (c : String) (hmem : c ∈ ucols) (hne : c ≠ stamp) :
    (conflict_update ucols stamp now incoming r).getv c = incoming.getv c := by
  unfold conflict_update
  rw [getv_setCol_ne _ _ _ _ hne]
  exact getv_fold_set_mem ucols incoming c r hmem

theorem conflict_update_frame (ucols : List String) (stamp : String) (now : Int)
    (incoming r : Rec) (c : String) (hmem : c ∉ ucols) (hne : c ≠ stamp) :
    (conflict_update ucols stamp now incoming r).getv c = r.getv c := by
  unfold conflict_update
  rw [getv_setCol_ne _ _ _ _ hne]
  exact getv_fold_set_not_mem ucols incoming c r hmem

theorem apply_upsert_conflict (keyCol : String) (ucols scols : List String) (stamp : String)
    (now : Int) (tbl : List Rec) (incoming : Rec)
    (h : tbl.any (fun r => PyVal.beq (r.getv keyCol) (incoming.getv keyCol)) = true) :
    apply_upsert keyCol ucols scols stamp now tbl incoming =
      tbl.map (fun r =>
        if PyVal.beq (r.getv keyCol) (incoming.getv keyCol)
        then conflict_update ucols stamp now incoming r
        else r) := by
  simp [apply_upsert, h]

/-- C7 counterexample: re-offering a node-input record whose `source_id`
already exists creates no second row, but the claim's "every other
column keeps its first-written value" fails: `etl_loaded_at` is outside
the version-closing/validation set, is first written as the insert time
(10) and is overwritten with the re-offer time (20) by the
`etl_loaded_at = NOW()` clause of the `ON CONFLICT DO UPDATE`. -/
theorem claim7_etl_loaded_at_cex :
    (load_node_data 10 [c7_tuple1] []).1.map (fun r => r.getv "etl_loaded_at") = [.intv 10] ∧
    (load_node_data 20 [c7_tuple2] ((load_node_data 10 [c7_tuple1] []).1)).1.map
      (fun r => r.getv "etl_loaded_at") = [.intv 20] ∧
    (load_node_data 20 [c7_tuple2] ((load_node_data 10 [c7_tuple1] []).1)).1.length = 1 ∧
    "etl_loaded_at" ∉ node_history_update_cols := by
  have hT1 : (load_node_data 10 [c7_tuple1] []).1 =
      [setCol (row_of_tuple node_history_cols c7_tuple1) "etl_loaded_at" (.intv 10)] := rfl
  have hkey1 : (setCol (row_of_tuple node_history_cols c7_tuple1) "etl_loaded_at" (.intv 10)).getv
      "source_id" = .str "nd-1" := rfl
  have hkey2 : (row_of_tuple node_history_cols c7_tuple2).getv "source_id" = .str "nd-1" := rfl
  have hconf : ((load_node_data 10 [c7_tuple1] []).1).any
      (fun r => PyVal.beq (r.getv "source_id")
        ((row_of_tuple node_history_cols c7_tuple2).getv "source_id")) = true := by
    rw [hT1]
    simp [hkey1, hkey2, PyVal.beq]
  have hbeq : PyVal.beq
      ((setCol (row_of_tuple node_history_cols c7_tuple1) "etl_loaded_at" (.intv 10)).getv "source_id")
      ((row_of_tuple node_history_cols c7_tuple2).getv "source_id") = true := by
    rw [hkey1, hkey2]
    simp [PyVal.beq]
  have hload : (load_node_data 20 [c7_tuple2] ((load_node_data 10 [c7_tuple1] []).1)).1 =
      apply_upsert "source_id" node_history_update_cols ["etl_loaded_at"] "etl_loaded_at" 20
        ((load_node_data 10 [c7_tuple1] []).1) (row_of_tuple node_history_cols c7_tuple2) := by
    simp [load_node_data, executemany_target]
  have hT2 : (load_node_data 20 [c7_tuple2] ((load_node_data 10 [c7_tuple1] []).1)).1 =
      [conflict_update node_history_update_cols "etl_loaded_at" 20
        (row_of_tuple node_history_cols c7_tuple2)
        (setCol (row_of_tuple node_history_cols c7_tuple1) "etl_loaded_at" (.intv 10))] := by
    rw [hload, apply_upsert_conflict _ _ _ _ _ _ _ hconf, hT1]
    simp [hbeq]
  refine ⟨rfl, ?_, ?_, by decide⟩
  · rw [hT2]
    simp [conflict_update_stamp]
  · rw [hT2]
    rfl

/-- C7 (amended): for the InsertVersioned policy (`load_node_data` and
`load_event_data`), re-offering a record whose `source_id` already
exists creates no second row and updates only the version-closing fields
(`version_ended_at`, `is_current_version`), the validation state
(`input_validated`/`validation_message`, resp.
`is_validated`/`validation_message`) and the ETL bookkeeping stamp
`etl_loaded_at` (refreshed to the load time); every other column keeps
its first-written value. -/
theorem claim7_versioned_upsert_amended :
    ∀ now : Int, ∀ vals : List PyVal, ∀ tbl : List Rec,
    (tbl.any (fun r => PyVal.beq (r.getv "source_id")
        ((row_of_tuple node_history_cols vals).getv "source_id")) = true →
      (load_node_data now [vals] tbl).1.length = tbl.length ∧
      (load_node_data now [vals] tbl).1 = tbl.map (fun r =>
        if PyVal.beq (r.getv "source_id") ((row_of_tuple node_history_cols vals).getv "source_id")
        then conflict_update node_history_update_cols "etl_loaded_at" now
          (row_of_tuple node_history_cols vals) r
        else r)) ∧
    (tbl.any (fun r => PyVal.beq (r.getv "source_id")
        ((row_of_tuple event_history_cols vals).getv "source_id")) = true →
      (load_event_data now [vals] tbl).1.length = tbl.length ∧
      (load_event_data now [vals] tbl).1 = tbl.map (fun r =>
        if PyVal.beq (r.getv "source_id") ((row_of_tuple event_history_cols vals).getv "source_id")
        then conflict_update event_history_update_cols "etl_loaded_at" now
          (row_of_tuple event_history_cols vals) r
        else r)) ∧
    (∀ incoming r : Rec,
      (conflict_update node_history_update_cols "etl_loaded_at" now incoming r).getv
        "version_ended_at" = incoming.getv "version_ended_at" ∧
      (conflict_update node_history_update_cols "etl_loaded_at" now incoming r).getv
        "is_current_version" = incoming.getv "is_current_version" ∧
      (conflict_update node_history_update_cols "etl_loaded_at" now incoming r).getv
        "input_validated" = incoming.getv "input_validated" ∧
      (conflict_update node_history_update_cols "etl_loaded_at" now incoming r).getv
        "validation_message" = incoming.getv "validation_message" ∧
      (conflict_update node_history_update_cols "etl_loaded_at" now incoming r).getv
        "etl_loaded_at" = .intv now ∧
      (∀ c : String, c ∉ node_history_update_cols → c ≠ "etl_loaded_at" →
        (conflict_update node_history_update_cols "etl_loaded_at" now incoming r).getv c =
          r.getv c)) ∧
    (∀ incoming r : Rec,
      (conflict_update event_history_update_cols "etl_loaded_at" now incoming r).getv
        "version_ended_at" = incoming.getv "version_ended_at" ∧
      (conflict_update event_history_update_cols "etl_loaded_at" now incoming r).getv
        "is_current_version" = incoming.getv "is_current_version" ∧
      (conflict_update event_history_update_cols "etl_loaded_at" now incoming r).getv
        "is_validated" = incoming.getv "is_validated" ∧
      (conflict_update event_history_update_cols "etl_loaded_at" now incoming r).getv
        "validation_message" = incoming.getv "validation_message" ∧
      (conflict_update event_history_update_cols "etl_loaded_at" now incoming r).getv
        "etl_loaded_at" = .intv now ∧
      (∀ c : String, c ∉ event_history_update_cols → c ≠ "etl_loaded_at" →
        (conflict_update event_history_update_cols "etl_loaded_at" now incoming r).getv c =
          r.getv c)) := by
  intro now vals tbl
  refine ⟨?_, ?_, ?_, ?_⟩
  · intro h
    have hload : (load_node_data now [vals] tbl).1 =
        apply_upsert "source_id" node_history_update_cols ["etl_loaded_at"] "etl_loaded_at" now
          tbl (row_of_tuple node_history_cols vals) := by
      simp [load_node_data, executemany_target]
    constructor
    · rw [hload, apply_upsert_conflict _ _ _ _ _ _ _ h, List.length_map]
    · rw [hload, apply_upsert_conflict _ _ _ _ _ _ _ h]
  · intro h
    have hload : (load_event_data now [vals] tbl).1 =
        apply_upsert "source_id" event_history_update_cols ["etl_loaded_at"] "etl_loaded_at" now
          tbl (row_of_tuple event_history_cols vals) := by
      simp [load_event_data, executemany_target]
    constructor
    · rw [hload, apply_upsert_conflict _ _ _ _ _ _ _ h, List.length_map]
    · rw [hload, apply_upsert_conflict _ _ _ _ _ _ _ h]
  · intro incoming r
    refine ⟨conflict_update_updated _ _ _ _ _ _ (by decide) (by decide),
            conflict_update_updated _ _ _ _ _ _ (by decide) (by decide),
            conflict_update_updated _ _ _ _ _ _ (by decide) (by decide),
            conflict_update_updated _ _ _ _ _ _ (by decide) (by decide),
            conflict_update_stamp _ _ _ _ _, ?_⟩
    intro c hc hne
    exact conflict_update_frame _ _ _ _ _ _ hc hne
  · intro incoming r
    refine ⟨conflict_update_updated _ _ _ _ _ _ (by decide) (by decide),
            conflict_update_updated _ _ _ _ _ _ (by decide) (by decide),
            conflict_update_updated _ _ _ _ _ _ (by decide) (by decide),
            conflict_update_updated _ _ _ _ _ _ (by decide) (by decide),
            conflict_update_stamp _ _ _ _ _, ?_⟩
    intro c hc hne
    exact conflict_update_frame _ _ _ _ _ _ hc hne

/-- C7 witness: the amended statement applied to a concrete re-offer of
an already-stored record. -/
theorem claim7_versioned_upsert_witness :
    (load_node_data 20 [c7_tuple2] ((load_node_data 10 [c7_tuple1] []).1)).1.length =
      ((load_node_data 10 [c7_tuple1] []).1).length ∧
    (conflict_update node_history_update_cols "etl_loaded_at" 20
        (row_of_tuple node_history_cols c7_tuple2)
        (setCol (row_of_tuple node_history_cols c7_tuple1) "etl_loaded_at" (.intv 10))).getv
      "version_ended_at" = (row_of_tuple node_history_cols c7_tuple2).getv "version_ended_at" := by
  have hT1 : (load_node_data 10 [c7_tuple1] []).1 =
      [setCol (row_of_tuple node_history_cols c7_tuple1) "etl_loaded_at" (.intv 10)] := rfl
  have hkey1 : (setCol (row_of_tuple node_history_cols c7_tuple1) "etl_loaded_at" (.intv 10)).getv
      "source_id" = .str "nd-1" := rfl
  have hkey2 : (row_of_tuple node_history_cols c7_tuple2).getv "source_id" = .str "nd-1" := rfl
  have hconf : ((load_node_data 10 [c7_tuple1] []).1).any
      (fun r => PyVal.beq (r.getv "source_id")
        ((row_of_tuple node_history_cols c7_tuple2).getv "source_id")) = true := by
    rw [hT1]
    simp [hkey1, hkey2, PyVal.beq]
  exact ⟨((claim7_versioned_upsert_amended 20 c7_tuple2
            ((load_node_data 10 [c7_tuple1] []).1)).1 hconf).1,
         ((claim7_versioned_upsert_amended 20 c7_tuple2
            ((load_node_data 10 [c7_tuple1] []).1)).2.2.1
            (row_of_tuple node_history_cols c7_tuple2)
            (setCol (row_of_tuple node_history_cols c7_tuple1) "etl_loaded_at" (.intv 10))).1⟩

theorem foldl_insert_dedup_existing (keyCol : String) (cols scols : List String) (now : Int) :
    ∀ rows : List (List PyVal), ∀ tbl : List Rec,
      (∀ vals ∈ rows, tbl.any (fun r => PyVal.beq (r.getv keyCol)
          ((row_of_tuple cols vals).getv keyCol)) = true) →
      rows.foldl (fun t vals => apply_insert_dedup keyCol scols now t (row_of_tuple cols vals))
        tbl = tbl := by
  intro rows
  induction rows with
  | nil => intro tbl _; rfl
  | cons v tl ih =>
      intro tbl h
      have h0 := h v (List.mem_cons_self v tl)
      have happ : apply_insert_dedup keyCol scols now tbl (row_of_tuple cols v) = tbl := by
        simp [apply_insert_dedup, h0]
      rw [List.foldl_cons, happ]
      exact ih tbl (fun w hw => h w (List.mem_cons_of_mem _ hw))

/-- C10: every loader returns `len(rows)` — the size of the input batch,
not the number of rows actually inserted or changed (a batch consisting
entirely of already-present duplicates under the InsertOnlyDedup policy
leaves the table unchanged yet still reports the full batch size) —
while an empty input batch returns zero, performs no database I/O and
leaves the table untouched. -/
theorem claim10_loader_return_batch_size :
    ∀ now : Int, ∀ rows : List (List PyVal), ∀ tbl : List Rec,
      ((load_scenarios now rows tbl).2.1 = rows.length ∧
       (load_node_data now rows tbl).2.1 = rows.length ∧
       (load_runs now rows tbl).2.1 = rows.length ∧
       (load_node_calc now rows tbl).2.1 = rows.length ∧
       (load_event_data now rows tbl).2.1 = rows.length ∧
       (load_timeline now rows tbl).2.1 = rows.length) ∧
      (load_scenarios now [] tbl = (tbl, 0, false) ∧
       load_node_data now [] tbl = (tbl, 0, false) ∧
       load_runs now [] tbl = (tbl, 0, false) ∧
       load_node_calc now [] tbl = (tbl, 0, false) ∧
       load_event_data now [] tbl = (tbl, 0, false) ∧
       load_timeline now [] tbl = (tbl, 0, false)) ∧
      ((∀ vals ∈ rows, tbl.any (fun r => PyVal.beq (r.getv "source_key")
          ((row_of_tuple timeline_cols vals).getv "source_key")) = true) →
        (load_timeline now rows tbl).1 = tbl) ∧
      ((∀ vals ∈ rows, tbl.any (fun r => PyVal.beq (r.getv "source_id")
          ((row_of_tuple node_calc_cols vals).getv "source_id")) = true) →
        (load_node_calc now rows tbl).1 = tbl) := by
  intro now rows tbl
  refine ⟨?_, ⟨rfl, rfl, rfl, rfl, rfl, rfl⟩, ?_, ?_⟩
  · cases rows with
    | nil => exact ⟨rfl, rfl, rfl, rfl, rfl, rfl⟩
    | cons v tl =>
        refine ⟨?_, ?_, ?_, ?_, ?_, ?_⟩ <;>
          simp [load_scenarios, load_node_data, load_runs, load_node_calc,
                load_event_data, load_timeline, executemany_target]
  · intro h
    cases rows with
    | nil => rfl
    | cons v tl =>
        have : (load_timeline now (v :: tl) tbl).1 =
            (v :: tl).foldl (fun t vals => apply_insert_dedup "source_key" ["etl_loaded_at"]
              now t (row_of_tuple timeline_cols vals)) tbl := by
          simp [load_timeline, executemany_target]
        rw [this]
        exact foldl_insert_dedup_existing "source_key" timeline_cols ["etl_loaded_at"] now
          (v :: tl) tbl h
  · intro h
    cases rows with
    | nil => rfl
    | cons v tl =>
        have : (load_node_calc now (v :: tl) tbl).1 =
            (v :: tl).foldl (fun t vals => apply_insert_dedup "source_id" ["etl_loaded_at"]
              now t (row_of_tuple node_calc_cols vals)) tbl := by
          simp [load_node_calc, executemany_target]
        rw [this]
        exact foldl_insert_dedup_existing "source_id" node_calc_cols ["etl_loaded_at"] now
          (v :: tl) tbl h

/-- C10 witness: a batch that is entirely duplicates of an
already-loaded timeline event leaves the table unchanged and still
returns the batch size 1; the empty batch is a no-op returning 0. -/
theorem claim10_loader_witness :
    (load_timeline 6 [c10_tuple] ((load_timeline 5 [c10_tuple] []).1)).1 =
      (load_timeline 5 [c10_tuple] []).1 ∧
    (load_timeline 6 [c10_tuple] ((load_timeline 5 [c10_tuple] []).1)).2.1 = 1 ∧
    load_timeline 6 [] ((load_timeline 5 [c10_tuple] []).1) =
      ((load_timeline 5 [c10_tuple] []).1, 0, false) := by
  have hT : (load_timeline 5 [c10_tuple] []).1 =
      [setCol (row_of_tuple timeline_cols c10_tuple) "etl_loaded_at" (.intv 5)] := rfl
  have hk1 : (setCol (row_of_tuple timeline_cols c10_tuple) "etl_loaded_at" (.intv 5)).getv
      "source_key" = .str "SC_sc-1" := rfl
  have hk2 : (row_of_tuple timeline_cols c10_tuple).getv "source_key" = .str "SC_sc-1" := rfl
  have hdup : ∀ vals ∈ [c10_tuple],
      ((load_timeline 5 [c10_tuple] []).1).any (fun r => PyVal.beq (r.getv "source_key")
        ((row_of_tuple timeline_cols vals).getv "source_key")) = true := by
    intro vals hv
    have : vals = c10_tuple := by simpa using hv
    subst this
    rw [hT]
    simp [hk1, hk2, PyVal.beq]
  refine ⟨?_, ?_, ?_⟩
  · exact (claim10_loader_return_batch_size 6 [c10_tuple]
      ((load_timeline 5 [c10_tuple] []).1)).2.2.1 hdup
  · exact (claim10_loader_return_batch_size 6 [c10_tuple]
      ((load_timeline 5 [c10_tuple] []).1)).1.2.2.2.2.2
  · exact (claim10_loader_return_batch_size 6 []
      ((load_timeline 5 [c10_tuple] []).1)).2.1.2.2.2.2.2

theorem run_entity_step_result (env : DbEnv) (e : Entity) (st : EtlState) :
    (run_entity_step env e st).2 = entity_outcome env e (st.watermarks e) := rfl

theorem run_entity_step_wm_ne (env : DbEnv) (e : Entity) (st : EtlState) (x : Entity)
    (h : x ≠ e) :
    ((run_entity_step env e st).1).watermarks x = st.watermarks x := by
  by_cases hc : entity_committed env e (st.watermarks e) <;>
    simp [run_entity_step, hc, h]

theorem run_entity_step_wm_self (env : DbEnv) (e : Entity) (st : EtlState) :
    ((run_entity_step env e st).1).watermarks e =
      (if entity_committed env e (st.watermarks e)
       then update_watermark (env.now e)
         ((env.source_rows e (get_watermark (st.watermarks e))).length) (st.watermarks e)
       else st.watermarks e) := by
  by_cases hc : entity_committed env e (st.watermarks e) <;>
    simp [run_entity_step, hc]

theorem run_cycle_unfold (env : DbEnv) (st : EtlState) :
    run_cycle env st =
      (let s1 := run_entity_step env .scenarios st
       let s2 := run_entity_step env .node_data s1.1
       let s3 := run_entity_step env .runs s2.1
       let s4 := run_entity_step env .node_calc s3.1
       let s5 := run_entity_step env .event_data s4.1
       let s6 := run_entity_step env .timeline s5.1
       (s6.1, [(.scenarios, s1.2), (.node_data, s2.2), (.runs, s3.2),
               (.node_calc, s4.2), (.event_data, s5.2), (.timeline, s6.2)])) := rfl

theorem run_cycle_log (env : DbEnv) (st : EtlState) :
    (run_cycle env st).2 =
      [(.scenarios, entity_outcome env .scenarios (st.watermarks .scenarios)),
       (.node_data, entity_outcome env .node_data (st.watermarks .node_data)),
       (.runs, entity_outcome env .runs (st.watermarks .runs)),
       (.node_calc, entity_outcome env .node_calc (st.watermarks .node_calc)),
       (.event_data, entity_outcome env .event_data (st.watermarks .event_data)),
       (.timeline, entity_outcome env .timeline (st.watermarks .timeline))] := by
  rw [run_cycle_unfold]
  simp only [run_entity_step_result]
  rw [run_entity_step_wm_ne env .scenarios st .node_data (by decide),
      run_entity_step_wm_ne env .node_data _ .runs (by decide),
      run_entity_step_wm_ne env .scenarios st .runs (by decide),
      run_entity_step_wm_ne env .runs _ .node_calc (by decide),
      run_entity_step_wm_ne env .node_data _ .node_calc (by decide),
      run_entity_step_wm_ne env .scenarios st .node_calc (by decide),
      run_entity_step_wm_ne env .node_calc _ .event_data (by decide),
      run_entity_step_wm_ne env .runs _ .event_data (by decide),
      run_entity_step_wm_ne env .node_data _ .event_data (by decide),
      run_entity_step_wm_ne env .scenarios st .event_data (by decide),
      run_entity_step_wm_ne env .event_data _ .timeline (by decide),
      run_entity_step_wm_ne env .node_calc _ .timeline (by decide),
      run_entity_step_wm_ne env .runs _ .timeline (by decide),
      run_entity_step_wm_ne env .node_data _ .timeline (by decide),
      run_entity_step_wm_ne env .scenarios st .timeline (by decide)]

theorem run_cycle_wm (env : DbEnv) (st : EtlState) (e : Entity) :
    (run_cycle env st).1.watermarks e =
      (if entity_committed env e (st.watermarks e)
       then update_watermark (env.now e)
         ((env.source_rows e (get_watermark (st.watermarks e))).length) (st.watermarks e)
       else st.watermarks e) := by
  rw [run_cycle_unfold]
  cases e
  case scenarios =>
    rw [run_entity_step_wm_ne env .timeline _ .scenarios (by decide),
        run_entity_step_wm_ne env .event_data _ .scenarios (by decide),
        run_entity_step_wm_ne env .node_calc _ .scenarios (by decide),
        run_entity_step_wm_ne env .runs _ .scenarios (by decide),
        run_entity_step_wm_ne env .node_data _ .scenarios (by decide),
        run_entity_step_wm_self env .scenarios st]
  case node_data =>
    rw [run_entity_step_wm_ne env .timeline _ .node_data (by decide),
        run_entity_step_wm_ne env .event_data _ .node_data (by decide),
        run_entity_step_wm_ne env .node_calc _ .node_data (by decide),
        run_entity_step_wm_ne env .runs _ .node_data (by decide),
        run_entity_step_wm_self env .node_data _,
        run_entity_step_wm_ne env .scenarios st .node_data (by decide)]
  case runs =>
    rw [run_entity_step_wm_ne env .timeline _ .runs (by decide),
        run_entity_step_wm_ne env .event_data _ .runs (by decide),
        run_entity_step_wm_ne env .node_calc _ .runs (by decide),
        run_entity_step_wm_self env .runs _,
        run_entity_step_wm_ne env .node_data _ .runs (by decide),
        run_entity_step_wm_ne env .scenarios st .runs (by decide)]
  case node_calc =>
    rw [run_entity_step_wm_ne env .timeline _ .node_calc (by decide),
        run_entity_step_wm_ne env .event_data _ .node_calc (by decide),
        run_entity_step_wm_self env .node_calc _,
        run_entity_step_wm_ne env .runs _ .node_calc (by decide),
        run_entity_step_wm_ne env .node_data _ .node_calc (by decide),
        run_entity_step_wm_ne env .scenarios st .node_calc (by decide)]
  case event_data =>
    rw [run_entity_step_wm_ne env .timeline _ .event_data (by decide),
        run_entity_step_wm_self env .event_data _,
        run_entity_step_wm_ne env .node_calc _ .event_data (by decide),
        run_entity_step_wm_ne env .runs _ .event_data (by decide),
        run_entity_step_wm_ne env .node_data _ .event_data (by decide),
        run_entity_step_wm_ne env .scenarios st .event_data (by decide)]
  case timeline =>
    rw [run_entity_step_wm_self env .timeline _,
        run_entity_step_wm_ne env .event_data _ .timeline (by decide),
        run_entity_step_wm_ne env .node_calc _ .timeline (by decide),
        run_entity_step_wm_ne env .runs _ .timeline (by decide),
        run_entity_step_wm_ne env .node_data _ .timeline (by decide),
        run_entity_step_wm_ne env .scenarios st .timeline (by decide)]

/-- C3: within one cycle, a failure in one entity's step never
propagates: `run_cycle` records one result per entity, in the fixed
order (so every entity's unit runs in the same invocation); each
entity's result is exactly its own unit's outcome computed from its own
watermark row; and that outcome depends only on that entity's own store
interactions, so a raise in entity A's extractor cannot change what any
other entity's unit does. -/
theorem claim3_cycle_failure_isolation :
    (∀ env : DbEnv, ∀ st : EtlState,
      (run_cycle env st).2.map Prod.fst = entity_order) ∧
    (∀ env : DbEnv, ∀ st : EtlState, ∀ e : Entity,
      (run_cycle env st).2.lookup e = some (entity_outcome env e (st.watermarks e))) ∧
    (∀ env env' : DbEnv, ∀ e : Entity, ∀ wr : Option WatermarkRow,
      env.source_rows e = env'.source_rows e →
      env.get_wm_fails e = env'.get_wm_fails e →
      env.extract_fails e = env'.extract_fails e →
      env.load_fails e = env'.load_fails e →
      env.commit_fails e = env'.commit_fails e →
      entity_outcome env e wr = entity_outcome env' e wr) := by
  refine ⟨?_, ?_, ?_⟩
  · intro env st
    rw [run_cycle_log]
    rfl
  · intro env st e
    rw [run_cycle_log]
    cases e <;> rfl
  · intro env env' e wr h1 h2 h3 h4 h5
    simp only [entity_outcome, h1, h2, h3, h4, h5]

/-- C3 witness: with the scenarios extractor raising, the cycle still
records all six units in order, scenarios fails, node-data completes
with zero rows, and the node-data outcome is identical to the one under
the fully healthy oracle. -/
theorem claim3_isolation_witness :
    (run_cycle env_scen_fails st_init).2.map Prod.fst = entity_order ∧
    (run_cycle env_scen_fails st_init).2.lookup .scenarios = some (.error .dbError) ∧
    (run_cycle env_scen_fails st_init).2.lookup .node_data = some (.ok 0) ∧
    entity_outcome env_scen_fails .node_data (st_init.watermarks .node_data) =
      entity_outcome env_all_ok .node_data (st_init.watermarks .node_data) := by
  refine ⟨claim3_cycle_failure_isolation.1 env_scen_fails st_init, ?_, ?_, ?_⟩
  · rw [claim3_cycle_failure_isolation.2.1 env_scen_fails st_init .scenarios]
    rfl
  · rw [claim3_cycle_failure_isolation.2.1 env_scen_fails st_init .node_data]
    rfl
  · exact claim3_cycle_failure_isolation.2.2 env_scen_fails env_all_ok .node_data
      (st_init.watermarks .node_data) rfl rfl rfl rfl rfl

/-- C2: per entity and cycle, the watermark row is replaced only when
that entity's whole unit (extract, transform, load, and the commit
itself) ran without raising, in which case `last_fetched_at` becomes the
commit-time clock (monotonically non-decreasing whenever the clock is at
or past the previously committed value); if any step raised, the row is
left entirely unchanged for that cycle. -/
theorem claim2_watermark_monotone_commit_only :
    ∀ env : DbEnv, ∀ st : EtlState, ∀ e : Entity,
      (∀ r : WatermarkRow, st.watermarks e = some r → r.last_fetched_at ≤ env.now e →
        ∃ r' : WatermarkRow, (run_cycle env st).1.watermarks e = some r' ∧
          r.last_fetched_at ≤ r'.last_fetched_at) ∧
      ((run_cycle env st).1.watermarks e ≠ st.watermarks e →
        entity_committed env e (st.watermarks e) = true ∧
        ∃ r : WatermarkRow, st.watermarks e = some r ∧
          (run_cycle env st).1.watermarks e = some
            { last_fetched_at := env.now e,
              rows_last_run := ((env.source_rows e (get_watermark (st.watermarks e))).length : Int),
              last_run_at := some (env.now e),
              total_rows_ever := r.total_rows_ever +
                ((env.source_rows e (get_watermark (st.watermarks e))).length : Int) }) ∧
      (entity_committed env e (st.watermarks e) = false →
        (run_cycle env st).1.watermarks e = st.watermarks e) := by
  intro env st e
  by_cases hc : entity_committed env e (st.watermarks e)
  · have hwm : (run_cycle env st).1.watermarks e =
        update_watermark (env.now e)
          ((env.source_rows e (get_watermark (st.watermarks e))).length) (st.watermarks e) := by
      rw [run_cycle_wm, hc]
      rfl
    refine ⟨?_, ?_, ?_⟩
    · intro r hr hle
      rw [hwm, hr]
      exact ⟨_, rfl, hle⟩
    · intro hne
      refine ⟨hc, ?_⟩
      cases hw : st.watermarks e with
      | none =>
          exact absurd (by rw [hwm, hw]; rfl) hne
      | some r =>
          refine ⟨r, rfl, ?_⟩
          rw [hwm, hw]
          rfl
    · intro hf
      rw [hc] at hf
      cases hf
  · have hc' : entity_committed env e (st.watermarks e) = false := by
      simpa using hc
    have hwm : (run_cycle env st).1.watermarks e = st.watermarks e := by
      rw [run_cycle_wm, hc']
      rfl
    refine ⟨?_, ?_, ?_⟩
    · intro r hr _
      rw [hwm, hr]
      exact ⟨r, rfl, le_refl _⟩
    · intro hne
      exact absurd hwm hne
    · intro _
      exact hwm

/-- C2 witness: under the healthy oracle with commit clock 2000 and a
cursor previously committed at 1000, the scenarios watermark advances to
a row with `last_fetched_at` at least 1000. -/
theorem claim2_watermark_witness :
    ∃ r' : WatermarkRow, (run_cycle env_all_ok st_init).1.watermarks .scenarios = some r' ∧
      (1000 : Int) ≤ r'.last_fetched_at :=
  (claim2_watermark_monotone_commit_only env_all_ok st_init .scenarios).1
    ⟨1000, 0, Option.none, 0⟩ rfl (by decide)
